import Mathlib

/-!
# Verification of the AI-Tutor lesson-generation core

Shallow embedding, in Lean 4, of the pure computational core of the
AI-Tutor backend (`apps/api`), together with proofs and refutations of the
frozen specification claims.

Conventions used throughout:

* Python `float` arithmetic is modelled by exact rationals (`ℚ`); every
  claim settled here either quantifies "up to floating-point tolerance"
  or is evaluated at inputs where the float and rational computations
  agree.
* Python `dict`s are modelled as association lists in insertion order;
  `dict.get(k, d)` is first-match lookup with default.
* Fallible Python code (raise/except) is modelled with `Except String`.
* pydub `AudioSegment` lengths are integral milliseconds (`ℕ`), exactly
  as `len(seg)` in pydub; `fade_in`/`fade_out` are pure gain envelopes
  and never change a segment's length.
-/

namespace AITutor

/-! ## Association-list primitives (Python `dict` in insertion order) -/

/-- The `dict.get(k)`: first binding of `k` in an insertion-ordered dict. -/
def alistGet {α : Type} (l : List (String × α)) (k : String) : Option α :=
  match l with
  | [] => none
  | (k', v) :: rest => if k' = k then some v else alistGet rest k

/-- The `k in d` for a Python dict. -/
def alistMem {α : Type} (l : List (String × α)) (k : String) : Bool :=
  (alistGet l k).isSome

deriving instance DecidableEq for Except

/-! ## `utils/audio_merger.py` — `AudioMerger.merge_audio_files_with_silence`

The filesystem side (loading, decoding, exporting) is the collaborator
boundary; the embedding takes the list of the clips' *normalized*
durations in milliseconds (the value of `len(next_audio)` after
`normalize_audio_format`, which pydub reports as integral ms) and the
`segment_info` payloads, and mirrors the timing bookkeeping of the
Python loop exactly. -/

/-- One entry of the `updated_segments` output: the copied `segment_info`
payload (here: its `slide_number`) with the timing keys written by
`segment.update({...})`.  Times are seconds, `ms / 1000.0`. -/
structure TimedSeg where
  slide_number : ℕ
  start_time : ℚ
  duration : ℚ
  end_time : ℚ
  deriving Repr, DecidableEq

/-- The `for i, audio_path in enumerate(audio_file_paths[1:], 1)` loop of
`merge_audio_files_with_silence`.  State: `cur` is `current_time_ms`,
`len` is `len(merged_audio)` in ms.  Each iteration appends
`fade_out(prev) + silence(pause) + fade_in(next)` (length `pause + c`)
and, when `segment_info` still has an entry for this clip index, emits a
timed segment and advances `current_time_ms` by the clip length. -/
def mergeSilenceLoop (pause : ℕ) :
    List ℕ → List ℕ → ℕ → ℕ → (List TimedSeg × ℕ)
  | [], _, _, len => ([], len)
  | c :: clips, infos, cur, len =>
    let cur' := cur + pause
    match infos with
    | [] =>
      -- `i < len(segment_info)` fails: no segment emitted and
      -- `current_time_ms` is *not* advanced by the clip length.
      mergeSilenceLoop pause clips [] cur' (len + pause + c)
    | info :: infos' =>
      let seg : TimedSeg :=
        { slide_number := info
          start_time := (cur' : ℚ) / 1000
          duration := (c : ℚ) / 1000
          end_time := ((cur' + c : ℕ) : ℚ) / 1000 }
      let rest := mergeSilenceLoop pause clips infos' (cur' + c) (len + pause + c)
      (seg :: rest.1, rest.2)

/-- The `AudioMerger.merge_audio_files_with_silence(paths, out, segment_info)`:
returns `(updated_segments, total_duration_seconds)`.  `clips` are the
normalized clip durations in ms, `infos` the `segment_info` payloads
(one per dict, in list order); an empty `clips` raises `ValueError`. -/
def merge_audio_files_with_silence (pause : ℕ) (clips : List ℕ)
    (infos : List ℕ) : Except String (List TimedSeg × ℚ) :=
  match clips with
  | [] => .error "No audio files provided for merging"
  | c0 :: rest =>
    match infos with
    | [] =>
      let r := mergeSilenceLoop pause rest [] 0 c0
      .ok (r.1, (r.2 : ℚ) / 1000)
    | i0 :: infos' =>
      let first : TimedSeg :=
        { slide_number := i0
          start_time := 0
          duration := (c0 : ℚ) / 1000
          end_time := (c0 : ℚ) / 1000 }
      let r := mergeSilenceLoop pause rest infos' c0 c0
      (.ok (first :: r.1, (r.2 : ℚ) / 1000))

/-! ### Loop invariants for the merge -/

/-- Adjacency relation claimed by the spec: the next segment starts one
silence gap after the previous one ends. -/
def padAdj (pause : ℕ) (a b : TimedSeg) : Prop :=
  b.start_time = a.end_time + (pause : ℚ) / 1000

theorem mergeSilenceLoop_len (pause : ℕ) (clips infos : List ℕ)
    (cur len : ℕ) (h : clips.length ≤ infos.length) :
    (mergeSilenceLoop pause clips infos cur len).1.length = clips.length := by
  induction clips generalizing infos cur len with
  | nil => simp [mergeSilenceLoop]
  | cons c rest ih =>
    cases infos with
    | nil => simp at h
    | cons i0 infos' =>
      simp only [mergeSilenceLoop]
      simp only [List.length_cons, add_le_add_iff_right] at h ⊢
      rw [ih infos' _ _ h]

theorem mergeSilenceLoop_total (pause : ℕ) (clips infos : List ℕ)
    (cur len : ℕ) :
    (mergeSilenceLoop pause clips infos cur len).2
      = len + clips.sum + clips.length * pause := by
  induction clips generalizing infos cur len with
  | nil => simp [mergeSilenceLoop]
  | cons c rest ih =>
    cases infos with
    | nil =>
      simp only [mergeSilenceLoop]
      rw [ih]
      simp [List.sum_cons, List.length_cons]
      ring
    | cons i0 infos' =>
      simp only [mergeSilenceLoop]
      rw [ih]
      simp [List.sum_cons, List.length_cons]
      ring

theorem mergeSilenceLoop_wellformed (pause : ℕ) (clips infos : List ℕ)
    (cur len : ℕ) :
    ∀ s ∈ (mergeSilenceLoop pause clips infos cur len).1,
      s.end_time = s.start_time + s.duration := by
  induction clips generalizing infos cur len with
  | nil => simp [mergeSilenceLoop]
  | cons c rest ih =>
    cases infos with
    | nil =>
      simp only [mergeSilenceLoop]
      exact ih _ _ _
    | cons i0 infos' =>
      simp only [mergeSilenceLoop]
      intro s hs
      rcases List.mem_cons.mp hs with h | h
      · subst h
        simp only [Nat.cast_add]
        ring
      · exact ih _ _ _ s h

/-- Head start time of the loop output: `(cur + pause) / 1000`. -/
theorem mergeSilenceLoop_head (pause : ℕ) (clips infos : List ℕ)
    (cur len : ℕ) (hc : clips ≠ []) (hi : clips.length ≤ infos.length) :
    ∃ s rest, (mergeSilenceLoop pause clips infos cur len).1 = s :: rest ∧
      s.start_time = ((cur + pause : ℕ) : ℚ) / 1000 := by
  cases clips with
  | nil => exact absurd rfl hc
  | cons c restc =>
    cases infos with
    | nil => simp at hi
    | cons i0 infos' =>
      refine ⟨_, _, rfl, ?_⟩
      simp

theorem mergeSilenceLoop_chain (pause : ℕ) (clips infos : List ℕ)
    (cur len : ℕ) (hi : clips.length ≤ infos.length) :
    List.Chain' (padAdj pause) (mergeSilenceLoop pause clips infos cur len).1 := by
  induction clips generalizing infos cur len with
  | nil => simp [mergeSilenceLoop]
  | cons c rest ih =>
    cases infos with
    | nil => simp at hi
    | cons i0 infos' =>
      simp only [List.length_cons, add_le_add_iff_right] at hi
      simp only [mergeSilenceLoop]
      by_cases hrest : rest = []
      · subst hrest
        simp [mergeSilenceLoop]
      · obtain ⟨s, tail, heq, hstart⟩ :=
          mergeSilenceLoop_head pause rest infos' (cur + pause + c)
            (len + pause + c) hrest hi
        rw [heq]
        refine List.Chain'.cons ?_ ?_
        · show padAdj pause _ s
          unfold padAdj
          rw [hstart]
          push_cast
          ring
        · have := ih infos' (cur + pause + c) (len + pause + c) hi
          rw [heq] at this
          exact this

/-- C1. For `N ≥ 1` clips and at least `N` `segment_info` entries,
`merge_audio_files_with_silence` returns `N` segments such that each
consecutive pair satisfies
`next.start_time = prev.end_time + pause/1000`, every segment satisfies
`end_time = start_time + duration`, and the returned total duration is
the sum of the normalized clip durations plus `(N-1)·pause/1000`
seconds. -/
theorem merge_with_silence_timing (pause : ℕ) (clips infos : List ℕ)
    (hc : clips ≠ []) (hi : clips.length ≤ infos.length) :
    ∃ segs total,
      merge_audio_files_with_silence pause clips infos = .ok (segs, total) ∧
      segs.length = clips.length ∧
      List.Chain' (padAdj pause) segs ∧
      (∀ s ∈ segs, s.end_time = s.start_time + s.duration) ∧
      total = (clips.sum : ℚ) / 1000
        + ((clips.length - 1 : ℕ) : ℚ) * ((pause : ℚ) / 1000) := by
  cases clips with
  | nil => exact absurd rfl hc
  | cons c0 rest =>
    cases infos with
    | nil => simp at hi
    | cons i0 infos' =>
      simp only [List.length_cons, add_le_add_iff_right] at hi
      refine ⟨_, _, rfl, ?_, ?_, ?_, ?_⟩
      · simp [mergeSilenceLoop_len pause rest infos' c0 c0 hi]
      · by_cases hrest : rest = []
        · subst hrest
          simp [mergeSilenceLoop]
        · obtain ⟨s, tail, heq, hstart⟩ :=
            mergeSilenceLoop_head pause rest infos' c0 c0 hrest hi
          simp only [heq]
          refine List.Chain'.cons ?_ ?_
          · show padAdj pause _ s
            unfold padAdj
            rw [hstart]
            push_cast
            ring
          · have := mergeSilenceLoop_chain pause rest infos' c0 c0 hi
            rw [heq] at this
            exact this
      · intro s hs
        rcases List.mem_cons.mp hs with h | h
        · subst h
          simp
        · exact mergeSilenceLoop_wellformed pause rest infos' c0 c0 s h
      · rw [mergeSilenceLoop_total pause rest infos' c0 c0]
        simp only [List.sum_cons, List.length_cons, Nat.add_sub_cancel]
        push_cast
        ring

/-- Witness for C1 at the spec's scenario: three clips of 5000 ms,
3200 ms and 4800 ms with the default 500 ms pause; the merged total is
`5.0 + 3.2 + 4.8 + 2 × 0.5 = 14.0` seconds. -/
theorem merge_with_silence_timing_witness :
    ([5000, 3200, 4800] : List ℕ) ≠ [] ∧
    ([5000, 3200, 4800] : List ℕ).length ≤ ([1, 2, 3] : List ℕ).length ∧
    ∃ segs total,
      merge_audio_files_with_silence 500 [5000, 3200, 4800] [1, 2, 3]
        = .ok (segs, total) ∧
      segs.length = 3 ∧
      List.Chain' (padAdj 500) segs ∧
      (∀ s ∈ segs, s.end_time = s.start_time + s.duration) ∧
      total = 14 := by
  refine ⟨by decide, by decide, ?_⟩
  obtain ⟨segs, total, h1, h2, h3, h4, h5⟩ :=
    merge_with_silence_timing 500 [5000, 3200, 4800] [1, 2, 3]
      (by decide) (by decide)
  refine ⟨segs, total, h1, h2, h3, h4, ?_⟩
  rw [h5]
  norm_num

/-- C1, counterexample. The claim's parenthetical example is wrong on
the code: merging clips of 5.0 s, 3.2 s and 4.8 s with a 500 ms pause
yields a total of 14.0 s (= 5.0+3.2+4.8+2×0.5), not the claimed 13.5 s
— and fades never change pydub segment lengths, so no tolerance bridges
the 0.5 s gap. -/
theorem merge_with_silence_example_not_13_5 :
    merge_audio_files_with_silence 500 [5000, 3200, 4800] [1, 2, 3]
      = .ok ([⟨1, 0, 5, 5⟩, ⟨2, 11/2, 16/5, 87/10⟩, ⟨3, 46/5, 24/5, 14⟩],
             (14 : ℚ)) ∧
    (14 : ℚ) ≠ 27/2 := by
  constructor
  · norm_num [merge_audio_files_with_silence, mergeSilenceLoop,
      Except.ok.injEq, Prod.mk.injEq, List.cons.injEq, TimedSeg.mk.injEq]
  · norm_num

/-! ## `routers/lesson.py` — post-merge timing update in
`generate_lesson_merged_audio`

After the merger returns, the router walks `audio_segments` in order.
A segment whose `slide_number` is in `updated_segments_map` gets the
merger's timing; any other segment is re-anchored to the `end_time` of
the nearest preceding segment that has an `audio_id` — read from the
in-place-mutated list, i.e. from already-updated values.  Mutation in
place is modelled by an accumulator of already-processed segments (in
reverse order). -/

/-- One entry of `audio_segments` (the fields the timing pass reads or
writes). -/
structure ASeg where
  slide_number : ℕ
  audio_id : Option ℕ
  start_time : ℚ
  duration : ℚ
  end_time : ℚ
  deriving Repr, DecidableEq

/-- The backward walk
`for j in range(i-1, -1, -1): if audio_segments[j].get("audio_id"): ...`
over the reversed list of already-processed segments; `0.0` when no
audio-bearing segment precedes. -/
def lastAudioEnd : List ASeg → ℚ
  | [] => 0
  | s :: rest => if s.audio_id.isSome then s.end_time else lastAudioEnd rest

/-- The `for i, segment in enumerate(audio_segments)` update loop.
`m` is `updated_segments_map` (slide_number → merger timing
`(start_time, duration, end_time)`); `acc` holds the already-updated
segments in reverse order. -/
def updateTimingLoop (m : ℕ → Option (ℚ × ℚ × ℚ)) :
    List ASeg → List ASeg → List ASeg
  | acc, [] => acc.reverse
  | acc, s :: rest =>
    match m s.slide_number with
    | some (st, d, en) =>
      updateTimingLoop m
        ({ s with start_time := st, duration := d, end_time := en } :: acc) rest
    | none =>
      let last := lastAudioEnd acc
      updateTimingLoop m
        ({ s with start_time := last, end_time := last + s.duration } :: acc)
        rest

/-- The whole post-merge timing update of `generate_lesson_merged_audio`
(lines 750–784). -/
def update_segment_timing (m : ℕ → Option (ℚ × ℚ × ℚ))
    (segs : List ASeg) : List ASeg :=
  updateTimingLoop m [] segs

/-- Specification-side reading of "the updated `end_time` of the nearest
preceding audio-bearing segment, or 0.0": walk backward from position
`i` in the final list. -/
def precedingAudioEnd (r : List ASeg) (i : ℕ) : ℚ :=
  lastAudioEnd ((r.take i).reverse)

/-- The property C2 asserts of one position of the updated list
(`getD` with a default keeps the statement free of dependent index
proofs; positions past the end are vacuous). -/
def anchoredAt (r : List ASeg) (i : ℕ) : Prop :=
  (r.getD i ⟨0, none, 0, 0, 0⟩).audio_id = none →
    (r.getD i ⟨0, none, 0, 0, 0⟩).start_time = precedingAudioEnd r i ∧
    (r.getD i ⟨0, none, 0, 0, 0⟩).end_time
      = (r.getD i ⟨0, none, 0, 0, 0⟩).start_time
        + (r.getD i ⟨0, none, 0, 0, 0⟩).duration

theorem take_append_of_le {α : Type} (l₁ l₂ : List α) (i : ℕ)
    (h : i ≤ l₁.length) : (l₁ ++ l₂).take i = l₁.take i := by
  rw [List.take_append_eq_append_take, Nat.sub_eq_zero_of_le h,
    List.take_zero, List.append_nil]

theorem accumulator_push_anchors (s' : ASeg) (acc : List ASeg)
    (hacc : ∀ i, i < acc.reverse.length → anchoredAt acc.reverse i)
    (hs' : s'.audio_id = none →
      s'.start_time = lastAudioEnd acc ∧
      s'.end_time = s'.start_time + s'.duration) :
    ∀ j, j < (s' :: acc).reverse.length → anchoredAt (s' :: acc).reverse j := by
  intro j hj
  have hrev : (s' :: acc).reverse = acc.reverse ++ [s'] := by simp
  have hjlen : j < acc.reverse.length + 1 := by simpa [hrev] using hj
  unfold anchoredAt precedingAudioEnd
  rcases Nat.lt_or_ge j acc.reverse.length with hlt | hge
  · -- old accumulator entries are unchanged, and so is their prefix
    have hget : (s' :: acc).reverse.getD j ⟨0, none, 0, 0, 0⟩
        = acc.reverse.getD j ⟨0, none, 0, 0, 0⟩ := by
      rw [hrev]
      simp [List.getD_eq_getElem?_getD, List.getElem?_append_left hlt]
    have htake : ((s' :: acc).reverse.take j) = acc.reverse.take j := by
      rw [hrev]
      exact take_append_of_le _ _ j (le_of_lt hlt)
    intro hnone
    have h2 := hacc j hlt
    unfold anchoredAt precedingAudioEnd at h2
    rw [hget, htake]
    exact h2 (by rw [← hget]; exact hnone)
  · -- the freshly pushed element
    have hj_eq : j = acc.reverse.length := le_antisymm
      (Nat.lt_succ_iff.mp hjlen) hge
    subst hj_eq
    have hget : (s' :: acc).reverse.getD acc.reverse.length ⟨0, none, 0, 0, 0⟩
        = s' := by
      rw [hrev]
      simp [List.getD_eq_getElem?_getD, List.getElem?_append_right]
    have htake : ((s' :: acc).reverse.take acc.reverse.length)
        = acc.reverse := by
      rw [hrev, take_append_of_le _ _ _ (le_refl _), List.take_length]
    intro hnone
    have hnone' : s'.audio_id = none := by rw [← hget]; exact hnone
    obtain ⟨h1, h2⟩ := hs' hnone'
    refine ⟨?_, ?_⟩
    · rw [hget, htake, List.reverse_reverse, h1]
    · rw [hget, h2]

theorem updateTimingLoop_anchors (m : ℕ → Option (ℚ × ℚ × ℚ))
    (l : List ASeg)
    (hm : ∀ s ∈ l, s.audio_id = none → m s.slide_number = none) :
    ∀ acc : List ASeg,
      (∀ i, i < acc.reverse.length → anchoredAt acc.reverse i) →
      ∀ i, i < (updateTimingLoop m acc l).length →
        anchoredAt (updateTimingLoop m acc l) i := by
  induction l with
  | nil =>
    intro acc hacc i hi
    simp only [updateTimingLoop] at hi ⊢
    exact hacc i hi
  | cons s rest ih =>
    intro acc hacc
    have hms : s.audio_id = none → m s.slide_number = none :=
      hm s (List.mem_cons_self s rest)
    have hm' : ∀ t ∈ rest, t.audio_id = none → m t.slide_number = none :=
      fun t ht => hm t (List.mem_cons_of_mem s ht)
    simp only [updateTimingLoop]
    cases hcase : m s.slide_number with
    | some t =>
      obtain ⟨st, d, en⟩ := t
      refine ih hm' _ (accumulator_push_anchors _ acc hacc ?_)
      intro hnone
      exact absurd hcase (by simp [hms hnone])
    | none =>
      refine ih hm' _ (accumulator_push_anchors _ acc hacc ?_)
      intro _
      exact ⟨rfl, rfl⟩

/-- C2. After the post-merge timing update, every segment whose
`audio_id` is `None` starts at the updated `end_time` of the nearest
preceding audio-bearing segment (0.0 when none precedes it) and ends at
that start time plus its own estimated duration (its `duration` field,
which the update loop leaves untouched for audio-less segments).  The
hypothesis is the router's invariant that `updated_segments_map` only
contains slide numbers of audio-bearing segments (it is built from
`segments_with_audio`). -/
theorem update_segment_timing_anchors_silent
    (m : ℕ → Option (ℚ × ℚ × ℚ)) (segs : List ASeg)
    (hm : ∀ s ∈ segs, s.audio_id = none → m s.slide_number = none) :
    ∀ i, i < (update_segment_timing m segs).length →
      anchoredAt (update_segment_timing m segs) i := by
  intro i hi
  exact updateTimingLoop_anchors m segs hm []
    (by intro j hj; simp at hj) i hi

/-- Witness for C2: four segments, slides 2 and 4 without audio; the
merger re-timed slides 1 and 3; slide 4 anchors to slide 3's updated
end time. -/
theorem update_segment_timing_anchors_silent_witness :
    (∀ s ∈ ([⟨1, some 10, 0, 5, 5⟩, ⟨2, none, 5, 3, 8⟩,
              ⟨3, some 11, 8, 4, 12⟩, ⟨4, none, 12, 2, 14⟩] : List ASeg),
        s.audio_id = none →
          (fun n => if n = 1 then some ((0 : ℚ), (5 : ℚ), (5 : ℚ))
            else if n = 3 then some ((11/2 : ℚ), (4 : ℚ), (19/2 : ℚ))
            else none) s.slide_number = none) ∧
    anchoredAt
      (update_segment_timing
        (fun n => if n = 1 then some ((0 : ℚ), (5 : ℚ), (5 : ℚ))
          else if n = 3 then some ((11/2 : ℚ), (4 : ℚ), (19/2 : ℚ))
          else none)
        [⟨1, some 10, 0, 5, 5⟩, ⟨2, none, 5, 3, 8⟩,
         ⟨3, some 11, 8, 4, 12⟩, ⟨4, none, 12, 2, 14⟩]) 3 :=
  ⟨by decide,
   update_segment_timing_anchors_silent _ _ (by decide) 3 (by decide)⟩

/-! ## `services/lesson_structure_service.py` — the lesson planner

The planner's LLM topic analysis and template lookup are collaborator
calls that do not influence section selection or duration allocation;
the embedding keeps the fields of the 9-section catalog and of
`SlideStructure` that the selection/scaling algorithm reads or writes
(`content_type`, `base_duration`, `priority`, plus the identifying
`name`/`template_id` strings). -/

/-- One entry of `LessonStructureService.lesson_sections`. -/
structure LessonSection where
  content_type : String
  name : String
  template_id : String
  base_duration : ℚ
  priority : ℕ
  deriving Repr, DecidableEq

/-- The fixed 9-section catalog, in catalog order. -/
def lesson_sections : List LessonSection :=
  [⟨"title-objective", "Title + Objective", "title-objective-1", 10, 1⟩,
   ⟨"context-motivation", "Context / Motivation", "context-motivation-1", 15, 1⟩,
   ⟨"analogy", "Analogy", "analogy-1", 20, 2⟩,
   ⟨"definition", "Definition", "definition-1", 15, 1⟩,
   ⟨"step-by-step", "Step-by-step Explanation / Theory", "step-by-step-1", 30, 1⟩,
   ⟨"examples", "Examples", "examples-1", 25, 1⟩,
   ⟨"common-mistakes", "Common mistakes", "common-mistakes-1", 15, 2⟩,
   ⟨"mini-recap", "Mini Recap", "mini-recap-1", 10, 1⟩,
   ⟨"things-to-ponder", "Some things to ponder", "things-to-ponder-1", 10, 2⟩]

/-- The `self.difficulty_multipliers.get(difficulty_level, 1.0)`. -/
def difficulty_multiplier (difficulty : String) : ℚ :=
  if difficulty = "beginner" then 8/10
  else if difficulty = "intermediate" then 1
  else if difficulty = "advanced" then 13/10
  else 1

/-- The `LessonStructureService._select_sections_for_duration`. -/
def select_sections_for_duration (target : ℚ) : List LessonSection :=
  if target < 90 then
    lesson_sections.filter fun s =>
      ["title-objective", "definition", "examples", "mini-recap"].contains
        s.content_type
  else if target < 180 then
    lesson_sections.filter fun s =>
      ["title-objective", "context-motivation", "definition", "examples",
       "common-mistakes", "mini-recap"].contains s.content_type
  else
    lesson_sections

/-- The fields of a planner `SlideStructure` that the duration/flow
algorithm produces (template selection and content prompts come from
collaborators and are dropped). -/
structure SlideStructure where
  slide_number : ℕ
  content_type : String
  estimated_duration : ℚ
  priority : ℕ
  deriving Repr, DecidableEq

/-- The `total_base_duration` of `_generate_slide_structures`. -/
def total_base_duration (sections : List LessonSection)
    (difficulty : String) : ℚ :=
  (sections.map fun s => s.base_duration * difficulty_multiplier difficulty).sum

/-- The `duration_scale` of `_generate_slide_structures`
(`target / total_base if total_base > 0 else 1.0`). -/
def duration_scale (sections : List LessonSection) (difficulty : String)
    (target : ℚ) : ℚ :=
  if 0 < total_base_duration sections difficulty then
    target / total_base_duration sections difficulty
  else 1

/-- The `LessonStructureService._generate_slide_structures`: scale each
difficulty-adjusted base duration and clamp to a minimum of 8.0 s. -/
def generate_slide_structures (sections : List LessonSection)
    (difficulty : String) (target : ℚ) : List SlideStructure :=
  let mult := difficulty_multiplier difficulty
  let scale := duration_scale sections difficulty target
  sections.enum.map fun p =>
    { slide_number := p.1 + 1
      content_type := p.2.content_type
      estimated_duration := max 8 (p.2.base_duration * mult * scale)
      priority := p.2.priority }

/-- The planner's output record (`LessonStructure`); `teaching_strategy`
comes from the external LLM topic analysis and is passed through. -/
structure LessonStructure where
  topic : String
  difficulty_level : String
  total_slides : ℕ
  estimated_total_duration : ℚ
  slides : List SlideStructure
  teaching_strategy : String
  content_flow : List String
  deriving Repr, DecidableEq

/-- The `LessonStructureService.analyze_topic_structure` (the deterministic
part: selection, scaling, assembly). -/
def analyze_topic_structure (topic difficulty : String) (target : ℚ)
    (strategy : String) : LessonStructure :=
  let sections := select_sections_for_duration target
  let slides := generate_slide_structures sections difficulty target
  { topic := topic
    difficulty_level := difficulty
    total_slides := slides.length
    estimated_total_duration := (slides.map (·.estimated_duration)).sum
    slides := slides
    teaching_strategy := strategy
    content_flow := slides.map (·.content_type) }

theorem sum_map_mul_const {α : Type} (l : List α) (f : α → ℚ) (c : ℚ) :
    (l.map fun s => f s * c).sum = (l.map f).sum * c := by
  induction l with
  | nil => simp
  | cons a t ih => simp [ih, add_mul]

theorem sum_enum_map_snd {α : Type} (l : List α) (f : α → ℚ) :
    (l.enum.map fun p => f p.2).sum = (l.map f).sum := by
  rw [show (fun p : ℕ × α => f p.2) = f ∘ Prod.snd from rfl, ← List.map_map,
    List.enum_map_snd]

/-- The `< 90 s` branch of `_select_sections_for_duration`, evaluated. -/
theorem select_sections_lt_90 (target : ℚ) (h : target < 90) :
    select_sections_for_duration target =
      [⟨"title-objective", "Title + Objective", "title-objective-1", 10, 1⟩,
       ⟨"definition", "Definition", "definition-1", 15, 1⟩,
       ⟨"examples", "Examples", "examples-1", 25, 1⟩,
       ⟨"mini-recap", "Mini Recap", "mini-recap-1", 10, 1⟩] := by
  unfold select_sections_for_duration
  rw [if_pos h]
  rfl

/-- The `90–180 s` branch of `_select_sections_for_duration`, evaluated. -/
theorem select_sections_90_180 (target : ℚ) (h1 : ¬ target < 90)
    (h2 : target < 180) :
    select_sections_for_duration target =
      [⟨"title-objective", "Title + Objective", "title-objective-1", 10, 1⟩,
       ⟨"context-motivation", "Context / Motivation", "context-motivation-1", 15, 1⟩,
       ⟨"definition", "Definition", "definition-1", 15, 1⟩,
       ⟨"examples", "Examples", "examples-1", 25, 1⟩,
       ⟨"common-mistakes", "Common mistakes", "common-mistakes-1", 15, 2⟩,
       ⟨"mini-recap", "Mini Recap", "mini-recap-1", 10, 1⟩] := by
  unfold select_sections_for_duration
  rw [if_neg h1, if_pos h2]
  rfl

theorem total_base_duration_pos (difficulty : String) (target : ℚ)
    (hd : difficulty = "beginner" ∨ difficulty = "intermediate" ∨
      difficulty = "advanced") :
    0 < total_base_duration (select_sections_for_duration target) difficulty := by
  have hm : 0 < difficulty_multiplier difficulty := by
    rcases hd with h | h | h <;> subst h <;> simp [difficulty_multiplier]
  have hsum : ∀ sections : List LessonSection,
      total_base_duration sections difficulty
        = (sections.map (·.base_duration)).sum * difficulty_multiplier difficulty :=
    fun sections => sum_map_mul_const sections _ _
  rw [hsum]
  refine mul_pos ?_ hm
  rcases lt_or_ge target 90 with h1 | h1
  · rw [select_sections_lt_90 target h1]
    norm_num
  · rcases lt_or_ge target 180 with h2 | h2
    · rw [select_sections_90_180 target (not_lt.mpr h1) h2]
      norm_num
    · unfold select_sections_for_duration
      rw [if_neg (not_lt.mpr h1), if_neg (not_lt.mpr h2)]
      norm_num [lesson_sections]

/-- C3. For the three catalogued difficulties and a positive target
duration, every planned slide's `estimated_duration` is at least 8.0 s,
and when the 8.0 s floor is not triggered for any selected section the
slide durations sum exactly (in exact rational arithmetic, i.e. "to
floating-point tolerance") to the target duration. -/
theorem planner_duration_scaling (difficulty : String) (target : ℚ)
    (hd : difficulty = "beginner" ∨ difficulty = "intermediate" ∨
      difficulty = "advanced")
    (ht : 0 < target) :
    (∀ s ∈ generate_slide_structures (select_sections_for_duration target)
        difficulty target, 8 ≤ s.estimated_duration) ∧
    ((∀ sec ∈ select_sections_for_duration target,
        8 ≤ sec.base_duration * difficulty_multiplier difficulty *
          duration_scale (select_sections_for_duration target) difficulty target) →
      ((generate_slide_structures (select_sections_for_duration target)
          difficulty target).map (·.estimated_duration)).sum = target) := by
  constructor
  · intro s hs
    simp only [generate_slide_structures, List.mem_map] at hs
    obtain ⟨p, _, rfl⟩ := hs
    exact le_max_left _ _
  · intro hfloor
    have hpos := total_base_duration_pos difficulty target hd
    have hmap : ((generate_slide_structures (select_sections_for_duration target)
        difficulty target).map (·.estimated_duration))
        = (select_sections_for_duration target).enum.map fun p =>
            max 8 (p.2.base_duration * difficulty_multiplier difficulty *
              duration_scale (select_sections_for_duration target)
                difficulty target) := by
      simp [generate_slide_structures, List.map_map]
    have hnf : ∀ p ∈ (select_sections_for_duration target).enum,
        max 8 (p.2.base_duration * difficulty_multiplier difficulty *
          duration_scale (select_sections_for_duration target) difficulty target)
        = p.2.base_duration * difficulty_multiplier difficulty *
          duration_scale (select_sections_for_duration target) difficulty target := by
      intro p hp
      have hmem : p.2 ∈ select_sections_for_duration target := by
        have h1 : p.2 ∈ (select_sections_for_duration target).enum.map Prod.snd :=
          List.mem_map_of_mem Prod.snd hp
        rwa [List.enum_map_snd] at h1
      exact max_eq_right (hfloor p.2 hmem)
    rw [hmap, List.map_congr_left hnf,
      sum_enum_map_snd (select_sections_for_duration target)
        (fun sec => sec.base_duration * difficulty_multiplier difficulty *
          duration_scale (select_sections_for_duration target) difficulty target),
      sum_map_mul_const (select_sections_for_duration target)
        (fun sec => sec.base_duration * difficulty_multiplier difficulty) _]
    show total_base_duration (select_sections_for_duration target) difficulty *
      duration_scale (select_sections_for_duration target) difficulty target
        = target
    unfold duration_scale
    rw [if_pos hpos]
    field_simp

/-- Witness for C3 at difficulty "intermediate" and target 90 s: the six
selected sections have base sum 90 and multiplier 1, so the scale is 1,
no slide hits the 8 s floor, and the plan sums to exactly 90 s. -/
theorem planner_duration_scaling_witness :
    (("intermediate" : String) = "beginner" ∨
      ("intermediate" : String) = "intermediate" ∨
      ("intermediate" : String) = "advanced") ∧
    (0 : ℚ) < 90 ∧
    (∀ sec ∈ select_sections_for_duration (90 : ℚ),
        8 ≤ sec.base_duration * difficulty_multiplier "intermediate" *
          duration_scale (select_sections_for_duration (90 : ℚ))
            "intermediate" (90 : ℚ)) ∧
    ((generate_slide_structures (select_sections_for_duration (90 : ℚ))
        "intermediate" (90 : ℚ)).map (·.estimated_duration)).sum = 90 := by
  have hfloor : ∀ sec ∈ select_sections_for_duration (90 : ℚ),
      8 ≤ sec.base_duration * difficulty_multiplier "intermediate" *
        duration_scale (select_sections_for_duration (90 : ℚ))
          "intermediate" (90 : ℚ) := by
    rw [select_sections_90_180 90 (by norm_num) (by norm_num)]
    have hm1 : difficulty_multiplier "intermediate" = 1 := by
      simp [difficulty_multiplier]
    have hsc : duration_scale
        [⟨"title-objective", "Title + Objective", "title-objective-1", 10, 1⟩,
         ⟨"context-motivation", "Context / Motivation", "context-motivation-1", 15, 1⟩,
         ⟨"definition", "Definition", "definition-1", 15, 1⟩,
         ⟨"examples", "Examples", "examples-1", 25, 1⟩,
         ⟨"common-mistakes", "Common mistakes", "common-mistakes-1", 15, 2⟩,
         ⟨"mini-recap", "Mini Recap", "mini-recap-1", 10, 1⟩]
        "intermediate" (90 : ℚ) = 1 := by
      unfold duration_scale total_base_duration
      rw [hm1]
      norm_num [List.map_cons, List.map_nil, List.sum_cons, List.sum_nil]
    rw [hsc, hm1]
    intro sec hsec
    fin_cases hsec <;> norm_num
  refine ⟨Or.inr (Or.inl rfl), by norm_num, hfloor, ?_⟩
  exact (planner_duration_scaling "intermediate" 90
    (Or.inr (Or.inl rfl)) (by norm_num)).2 hfloor

/-- C6. For every topic and difficulty, a target duration below 90 s
selects exactly the four core sections in catalog order: the plan has
`total_slides = 4`, `content_flow` is the four core content types, and
every slide's estimated duration is at least 8 s. -/
theorem planner_short_lesson_core_sections
    (topic difficulty strategy : String) (target : ℚ) (h : target < 90) :
    (analyze_topic_structure topic difficulty target strategy).total_slides = 4 ∧
    (analyze_topic_structure topic difficulty target strategy).content_flow
      = ["title-objective", "definition", "examples", "mini-recap"] ∧
    ∀ s ∈ (analyze_topic_structure topic difficulty target strategy).slides,
      8 ≤ s.estimated_duration := by
  have hsel := select_sections_lt_90 target h
  refine ⟨?_, ?_, ?_⟩
  · simp [analyze_topic_structure, generate_slide_structures, hsel, List.enum]
  · simp [analyze_topic_structure, generate_slide_structures, hsel, List.enum]
  · intro s hs
    simp only [analyze_topic_structure, generate_slide_structures,
      List.mem_map] at hs
    obtain ⟨p, _, rfl⟩ := hs
    exact le_max_left _ _

/-- Witness for C6 at the spec's scenario: topic "Photosynthesis",
difficulty "beginner", target 75 s. -/
theorem planner_short_lesson_core_sections_witness :
    ((75 : ℚ) < 90) ∧
    (analyze_topic_structure "Photosynthesis" "beginner" 75 "structured").total_slides = 4 ∧
    (analyze_topic_structure "Photosynthesis" "beginner" 75 "structured").content_flow
      = ["title-objective", "definition", "examples", "mini-recap"] ∧
    ∀ s ∈ (analyze_topic_structure "Photosynthesis" "beginner" 75 "structured").slides,
      8 ≤ s.estimated_duration :=
  ⟨by norm_num,
   planner_short_lesson_core_sections "Photosynthesis" "beginner" "structured"
     75 (by norm_num)⟩

/-! ## `services/tts_service.py` — duration estimation (C7)

String utilities mirror the Python builtins they stand for:
`str.strip`, `len(str.split())`, `str.lower`, substring `in`. -/

/-- Python whitespace (`str.split`/`str.strip` default set, ASCII part).shadow -/
def pyIsSpace (c : Char) : Bool :=
  c = ' ' || c = '\t' || c = '\n' || c = '\x0d' || c = '\x0b' || c = '\x0c'

/-- The `str.strip()` on the character list. -/
def pyStrip (l : List Char) : List Char :=
  ((l.dropWhile pyIsSpace).reverse.dropWhile pyIsSpace).reverse

/-- The `len(text.split())`: number of maximal non-whitespace runs. -/
def wordCountAux : Bool → List Char → ℕ
  | _, [] => 0
  | inWord, c :: rest =>
    if pyIsSpace c then wordCountAux false rest
    else (if inWord then 0 else 1) + wordCountAux true rest

def wordCount (l : List Char) : ℕ := wordCountAux false l

/-- The `pattern` is a prefix of `s` (character-wise). -/
def startsWithChars : List Char → List Char → Bool
  | [], _ => true
  | _ :: _, [] => false
  | p :: ps, c :: cs => p == c && startsWithChars ps cs

/-- Python substring test `needle in haystack`. -/
def containsSub (needle : List Char) : List Char → Bool
  | [] => startsWithChars needle []
  | c :: cs => startsWithChars needle (c :: cs) || containsSub needle cs

/-- The `str.lower()` (ASCII; the voice names compared are ASCII). -/
def strLower (s : String) : List Char := s.data.map Char.toLower

/-- The `VoiceCalibrationData` of `tts_service.py`. -/
structure VoiceCalibrationData where
  voice_id : String
  words_per_minute : ℚ
  characters_per_second : ℚ
  sample_count : ℕ
  confidence_score : ℚ
  deriving Repr, DecidableEq

/-- The fallback branch of `get_voice_speaking_rate`: 150 WPM with
per-voice-name adjustments. -/
def default_speaking_rate (voice_id : String) : ℚ :=
  let base : ℚ := 150
  if containsSub "lessac".data (strLower voice_id) then base * (95/100)
  else if containsSub "ryan".data (strLower voice_id) then base * (105/100)
  else if containsSub "jenny".data (strLower voice_id) then base * (90/100)
  else base

/-- The `PiperTTSService.get_voice_speaking_rate`. -/
def get_voice_speaking_rate (cals : List (String × VoiceCalibrationData))
    (voice_id : String) : ℚ :=
  match alistGet cals voice_id with
  | some cal =>
    if (3/10 : ℚ) ≤ cal.confidence_score then cal.words_per_minute
    else default_speaking_rate voice_id
  | none => default_speaking_rate voice_id

/-- The `voice = voice or self.default_voice` (Python `or`: `None` and the
empty string are both falsy). -/
def effective_voice (default_voice : String) (voice : Option String) : String :=
  match voice with
  | some s => if s = "" then default_voice else s
  | none => default_voice

/-- The `PiperTTSService.estimate_duration_with_calibration`. -/
def estimate_duration_with_calibration
    (cals : List (String × VoiceCalibrationData)) (default_voice : String)
    (text : String) (voice : Option String) : ℚ :=
  if (pyStrip text.data).isEmpty then 0
  else
    let v := effective_voice default_voice voice
    let speaking_rate := get_voice_speaking_rate cals v
    let word_count : ℚ := wordCount text.data
    let base_duration := word_count / speaking_rate * 60
    let final_duration := base_duration * (13/10)
    let min_duration := (text.length : ℚ) * (5/100)
    max (max final_duration min_duration) 1

theorem alistGet_mem {α : Type} (l : List (String × α)) (k : String) (v : α)
    (h : alistGet l k = some v) : (k, v) ∈ l := by
  induction l with
  | nil => simp [alistGet] at h
  | cons p rest ih =>
    obtain ⟨k', v'⟩ := p
    by_cases hk : k' = k
    · subst hk
      simp [alistGet] at h
      subst h
      exact List.mem_cons_self _ _
    · simp only [alistGet, if_neg hk] at h
      exact List.mem_cons_of_mem _ (ih h)

theorem default_speaking_rate_pos (voice_id : String) :
    0 < default_speaking_rate voice_id := by
  unfold default_speaking_rate
  split_ifs <;> norm_num

theorem get_voice_speaking_rate_pos (cals : List (String × VoiceCalibrationData))
    (v : String) (hw : ∀ p ∈ cals, 0 < p.2.words_per_minute) :
    0 < get_voice_speaking_rate cals v := by
  unfold get_voice_speaking_rate
  cases h : alistGet cals v with
  | none => exact default_speaking_rate_pos v
  | some cal =>
    dsimp only
    by_cases hc : (3/10 : ℚ) ≤ cal.confidence_score
    · rw [if_pos hc]
      exact hw (v, cal) (alistGet_mem cals v cal h)
    · rw [if_neg hc]
      exact default_speaking_rate_pos v

/-- C7 (amended). Whenever the text has a non-whitespace character,
the calibrated duration estimate is at least the 1.3×-buffered raw
word-count/rate estimate, at least 0.05 s per character, and at least
1.0 s; the speaking rate used is positive (so the Python division is
defined).  For whitespace-only text the function returns 0.0 — the
claim's "at least 1.0 second for every input text" fails there. -/
theorem estimate_duration_with_calibration_floor
    (cals : List (String × VoiceCalibrationData)) (default_voice : String)
    (text : String) (voice : Option String)
    (hw : ∀ p ∈ cals, 0 < p.2.words_per_minute) :
    (¬ (pyStrip text.data).isEmpty = true →
      0 < get_voice_speaking_rate cals (effective_voice default_voice voice) ∧
      ((wordCount text.data : ℚ) /
          get_voice_speaking_rate cals (effective_voice default_voice voice)
          * 60) * (13/10)
        ≤ estimate_duration_with_calibration cals default_voice text voice ∧
      (text.length : ℚ) * (5/100)
        ≤ estimate_duration_with_calibration cals default_voice text voice ∧
      1 ≤ estimate_duration_with_calibration cals default_voice text voice) ∧
    ((pyStrip text.data).isEmpty = true →
      estimate_duration_with_calibration cals default_voice text voice = 0) := by
  constructor
  · intro hne
    have hif : estimate_duration_with_calibration cals default_voice text voice
        = max (max ((wordCount text.data : ℚ) /
            get_voice_speaking_rate cals (effective_voice default_voice voice)
            * 60 * (13/10)) ((text.length : ℚ) * (5/100))) 1 := by
      unfold estimate_duration_with_calibration
      rw [if_neg hne]
    refine ⟨get_voice_speaking_rate_pos cals _ hw, ?_, ?_, ?_⟩
    · rw [hif]
      exact le_trans (le_max_left _ _) (le_max_left _ _)
    · rw [hif]
      exact le_trans (le_max_right _ _) (le_max_left _ _)
    · rw [hif]
      exact le_max_right _ _
  · intro he
    unfold estimate_duration_with_calibration
    rw [if_pos he]

/-- Witness for C7's amended statement: empty calibration store, text
"hello world". -/
theorem estimate_duration_with_calibration_floor_witness :
    (∀ p ∈ ([] : List (String × VoiceCalibrationData)),
      0 < p.2.words_per_minute) ∧
    ¬ (pyStrip "hello world".data).isEmpty = true ∧
    1 ≤ estimate_duration_with_calibration [] "en_US-lessac-medium"
      "hello world" none :=
  ⟨by simp,
   by decide,
   ((estimate_duration_with_calibration_floor [] "en_US-lessac-medium"
      "hello world" none (by simp)).1 (by decide)).2.2.2⟩

/-- C7, counterexample. On empty text the function returns 0.0, not
a value ≥ 1.0: the claimed floor does not hold "for every input text". -/
theorem estimate_duration_blank_text_zero :
    estimate_duration_with_calibration [] "en_US-lessac-medium" "" none = 0 ∧
    ¬ (1 ≤ estimate_duration_with_calibration [] "en_US-lessac-medium" "" none) := by
  have h : estimate_duration_with_calibration [] "en_US-lessac-medium" "" none
      = 0 := rfl
  exact ⟨h, by rw [h]; norm_num⟩

/-! ## `services/template_service.py` — responsive layout math (C8, C10)

An inner layout dict (`slide["layout"][element_kind]`) carries the keys
this code reads; a patch is a breakpoint override dict. -/

/-- One inner layout dict — the keys the rendering code reads.
`position` is accessed as `config["position"]` (required); the others
via `config.get(...)` with defaults. -/
structure LayoutConfig where
  position : String
  fontSize : Option String
  maxChars : Option ℤ
  maxLines : Option ℤ
  format : Option String
  alignment : Option String
  deriving Repr, DecidableEq

/-- A responsive override dict for one element kind (`dict.update`
patch: present keys win). -/
structure LayoutPatch where
  position : Option String
  fontSize : Option String
  maxChars : Option ℤ
  maxLines : Option ℤ
  format : Option String
  alignment : Option String
  deriving Repr, DecidableEq

/-- The `base.update(overrides)` on one inner layout dict. -/
def updateLayout (d : LayoutConfig) (p : LayoutPatch) : LayoutConfig :=
  { position := p.position.getD d.position
    fontSize := (p.fontSize).orElse fun _ => d.fontSize
    maxChars := (p.maxChars).orElse fun _ => d.maxChars
    maxLines := (p.maxLines).orElse fun _ => d.maxLines
    format := (p.format).orElse fun _ => d.format
    alignment := (p.alignment).orElse fun _ => d.alignment }

/-- Python `int()` on a float: truncation toward zero, on the exact
rational model of the float value. -/
def py_int (q : ℚ) : ℤ := if q < 0 then -(⌊-q⌋) else ⌊q⌋

/-- The `TemplateService._calculate_base_font_size` (Python `//` on
non-negative ints is `Nat` division). -/
def calculate_base_font_size (width : ℕ) : ℕ :=
  if width < 768 then max 14 (min 18 (width / 30))
  else if width < 1024 then max 16 (min 20 (width / 45))
  else max 18 (min 24 (width / 60))

/-- The `font_size_map.get(label, base_font_size * 2)` lookup of
`_create_heading_element`; the multipliers are the exact rationals of
the float literals (at base 14 — width 375 — `int()` of the float and
the rational floor agree on every entry). -/
def heading_font_size (base : ℕ) (label : String) : ℤ :=
  if label = "small" then py_int ((base : ℚ) * (12/10))
  else if label = "medium" then py_int ((base : ℚ) * (15/10))
  else if label = "large" then py_int ((base : ℚ) * (18/10))
  else if label = "xlarge" then py_int ((base : ℚ) * (22/10))
  else if label = "xxlarge" then py_int ((base : ℚ) * (26/10))
  else (base : ℤ) * 2

/-- Python `str.rfind(' ')`: last index of a space, `-1` if absent. -/
def rfindSpaceAux : List Char → ℕ → ℤ → ℤ
  | [], _, acc => acc
  | c :: rest, i, acc =>
    rfindSpaceAux rest (i + 1) (if c = ' ' then (i : ℤ) else acc)

def rfindSpace (l : List Char) : ℤ := rfindSpaceAux l 0 (-1)

/-- The `TemplateService._truncate_text`. -/
def truncate_text (text : List Char) (max_chars : ℕ) : List Char :=
  if text.length ≤ max_chars then text
  else
    let truncated := text.take max_chars
    let last_space := rfindSpace truncated
    if (max_chars : ℚ) * (7/10) < (last_space : ℚ) then
      truncated.take last_space.toNat ++ "...".data
    else
      truncated ++ "...".data

/-- A rendered `TemplateElement` (geometry in exact rationals). -/
structure TemplateElement where
  id : String
  type : String
  x : ℚ
  y : ℚ
  width : ℚ
  height : ℚ
  text : List Char
  fontSize : ℤ
  alignment : String
  color : String
  deriving Repr, DecidableEq

/-- The `TemplateService._create_heading_element`. -/
def create_heading_element (config : LayoutConfig) (text : List Char)
    (cwidth : ℕ) (base_font_size : ℕ) : TemplateElement :=
  let font_size := heading_font_size base_font_size
    (config.fontSize.getD "large")
  let max_chars := config.maxChars.getD 50
  let display_text := truncate_text text max_chars.toNat
  let char_width : ℚ := (font_size : ℚ) * (6/10)
  let text_width : ℚ := (display_text.length : ℚ) * char_width
  let text_height : ℚ := (font_size : ℚ) * (14/10)
  let padding : ℚ := max 20 ((cwidth : ℚ) * (5/100))
  let x : ℚ :=
    if config.position = "center-top" then ((cwidth : ℚ) - text_width) / 2
    else if config.position = "left-top" then padding
    else ((cwidth : ℚ) - text_width) / 2
  let y : ℚ := padding + (font_size : ℚ) * (5/10)
  { id := "heading"
    type := "text"
    x := max padding x
    y := y
    width := min text_width ((cwidth : ℚ) - 2 * padding)
    height := text_height
    text := display_text
    fontSize := font_size
    alignment := config.alignment.getD "center"
    color := "#1971c2" }

/-- C10. `_truncate_text` returns the input unchanged when it fits,
and otherwise a string ending in `"..."` whose length is at most
`max_chars + 3`. -/
theorem truncate_text_bounds (text : List Char) (max_chars : ℕ)
    (hpos : 0 < max_chars) :
    (text.length ≤ max_chars → truncate_text text max_chars = text) ∧
    (max_chars < text.length →
      "...".data <:+ truncate_text text max_chars ∧
      (truncate_text text max_chars).length ≤ max_chars + 3) := by
  constructor
  · intro h
    unfold truncate_text
    rw [if_pos h]
  · intro h
    have hnot : ¬ text.length ≤ max_chars := not_le.mpr h
    unfold truncate_text
    rw [if_neg hnot]
    have htlen : (text.take max_chars).length = max_chars :=
      List.length_take_of_le (le_of_lt h)
    by_cases hc : (max_chars : ℚ) * (7/10) < ((rfindSpace (text.take max_chars) : ℤ) : ℚ)
    · rw [if_pos hc]
      refine ⟨List.suffix_append _ _, ?_⟩
      have hb : ((text.take max_chars).take
          (rfindSpace (text.take max_chars)).toNat).length ≤ max_chars := by
        rw [List.length_take]
        exact le_trans (min_le_right _ _) (le_of_eq htlen)
      simpa [List.length_append] using Nat.add_le_add_right hb 3
    · rw [if_neg hc]
      refine ⟨List.suffix_append _ _, ?_⟩
      simp [List.length_append, htlen]

/-- Witness for C10: `max_chars = 5`, an 11-character text. -/
theorem truncate_text_bounds_witness :
    0 < 5 ∧ 5 < ("hello world".data).length ∧
    "...".data <:+ truncate_text "hello world".data 5 ∧
    (truncate_text "hello world".data 5).length ≤ 5 + 3 := by
  refine ⟨by norm_num, by decide, ?_, ?_⟩
  · exact ((truncate_text_bounds "hello world".data 5 (by norm_num)).2
      (by decide)).1
  · exact ((truncate_text_bounds "hello world".data 5 (by norm_num)).2
      (by decide)).2

/-- C8 (amended). At container width 375 (mobile) the base font size
is `max(14, min(18, 375 // 30)) = 14`, and every heading font size —
for any configured size label, including an unrecognized one — lies in
`[16, 46.8]`: the lower bound is `int(14 × 1.2) = 16`, not the claimed
`16.8`, because Python `int()` truncates. -/
theorem heading_font_size_mobile_bounds (config : LayoutConfig)
    (text : List Char) :
    16 ≤ (create_heading_element config text 375
        (calculate_base_font_size 375)).fontSize ∧
    ((create_heading_element config text 375
        (calculate_base_font_size 375)).fontSize : ℚ) ≤ 468/10 := by
  have hbase : calculate_base_font_size 375 = 14 := by decide
  have hfs : (create_heading_element config text 375
      (calculate_base_font_size 375)).fontSize
      = heading_font_size 14 (config.fontSize.getD "large") := by
    rw [hbase]
    rfl
  rw [hfs]
  unfold heading_font_size
  split_ifs <;> constructor <;> norm_num [py_int]
/-- C8, counterexample. The claim's lower bound fails on the code:
at width 375 the "small" heading label yields font size
`int(14 × 1.2) = 16 < 16.8`. -/
theorem heading_font_size_small_mobile_below_bound :
    (create_heading_element
        ⟨"center-top", some "small", some 50, none, none, none⟩
        "Photosynthesis".data 375 (calculate_base_font_size 375)).fontSize
      = 16 ∧
    ¬ ((168/10 : ℚ) ≤
      ((create_heading_element
        ⟨"center-top", some "small", some 50, none, none, none⟩
        "Photosynthesis".data 375 (calculate_base_font_size 375)).fontSize : ℚ)) := by
  have h16 : (create_heading_element
      ⟨"center-top", some "small", some 50, none, none, none⟩
      "Photosynthesis".data 375 (calculate_base_font_size 375)).fontSize
      = 16 := by
    show heading_font_size (calculate_base_font_size 375)
      (((some "small" : Option String)).getD "large") = 16
    norm_num [heading_font_size, py_int, calculate_base_font_size]
  refine ⟨h16, ?_⟩
  rw [h16]
  norm_num

/-! ## `services/template_filling_service.py` — responsive constraints
(C9) and template filling (C4)

The cached template's per-element layout dicts are shared objects:
`slide["layout"].copy()` copies only the outer dict spine, so the inner
dicts stay aliased between the copy and the template cache.  The heap
below makes those references explicit (`layout` maps element kinds to
heap addresses of `LayoutConfig` objects); the returned heap is the
state of the template cache after the call. -/

/-- The constraints record `_extract_constraints` builds per element. -/
structure FillConstraints where
  maxChars : ℤ
  maxLines : ℤ
  format : String
  deriving Repr, DecidableEq

/-- The `_extract_constraints` on one inner layout dict. -/
def extract_constraints_of (d : LayoutConfig) : FillConstraints :=
  { maxChars := d.maxChars.getD 300
    maxLines := d.maxLines.getD 5
    format := d.format.getD "text" }

abbrev LayoutHeap := List LayoutConfig

/-- Dereference a shared inner layout dict. -/
def heapGet (h : LayoutHeap) (r : ℕ) : LayoutConfig :=
  h.getD r ⟨"", none, none, none, none, none⟩

/-- Overwrite a shared inner layout dict in place. -/
def heapSet (h : LayoutHeap) (r : ℕ) (d : LayoutConfig) : LayoutHeap :=
  h.set r d

/-- A slide's `layout`/`responsive` as stored in the cached template:
`layout` maps element kinds to references into the heap. -/
structure SlideLayoutRefs where
  layout : List (String × ℕ)
  responsive : List (String × List (String × LayoutPatch))
  deriving Repr, DecidableEq

/-- Breakpoint from container width (`<768` mobile, `<1024` tablet). -/
def breakpoint_of_width (w : ℕ) : String :=
  if w < 768 then "mobile" else if w < 1024 then "tablet" else "desktop"

/-- The `TemplateFiller._extract_constraints`. -/
def extract_constraints (heap : LayoutHeap) (layout : List (String × ℕ)) :
    List (String × FillConstraints) :=
  layout.map fun p => (p.1, extract_constraints_of (heapGet heap p.2))

/-- The `TemplateFiller._get_responsive_constraints`.
`layout = slide["layout"].copy()` duplicates only the outer spine;
`layout[element_type].update(overrides)` then writes through the shared
inner references, mutating the cached template. -/
def get_responsive_constraints (heap : LayoutHeap) (slide : SlideLayoutRefs)
    (container_size : Option (ℕ × ℕ)) :
    LayoutHeap × List (String × FillConstraints) :=
  match container_size with
  | none => (heap, extract_constraints heap slide.layout)
  | some (w, _h) =>
    let bp := breakpoint_of_width w
    let layout := slide.layout
    let overrides := (alistGet slide.responsive bp).getD []
    let heap2 := overrides.foldl
      (fun hp p =>
        match alistGet layout p.1 with
        | some r => heapSet hp r (updateLayout (heapGet hp r) p.2)
        | none => hp)
      heap
    (heap2, extract_constraints heap2 layout)

/-- C9. The fill pipeline's responsive-constraint resolution mutates
the cached template: with a template whose slide has base layout
`heading ↦ {maxChars: 50, ...}` and a mobile override
`heading ↦ {maxChars: 30}`, a mobile-width call rewrites the template's
own inner layout dict to `maxChars = 30` — the store is not left
identical, refuting "immutable at runtime". -/
theorem get_responsive_constraints_mutates_template :
    (get_responsive_constraints
        [⟨"center-top", some "large", some 50, some 2, some "text", none⟩]
        ⟨[("heading", 0)],
         [("mobile", [("heading", ⟨none, none, some 30, none, none, none⟩)])]⟩
        (some (375, 667))).1
      = [⟨"center-top", some "large", some 30, some 2, some "text", none⟩] ∧
    (get_responsive_constraints
        [⟨"center-top", some "large", some 50, some 2, some "text", none⟩]
        ⟨[("heading", 0)],
         [("mobile", [("heading", ⟨none, none, some 30, none, none, none⟩)])]⟩
        (some (375, 667))).1
      ≠ [⟨"center-top", some "large", some 50, some 2, some "text", none⟩] := by
  constructor
  · rfl
  · decide

/-! ## `re.sub` machinery

`reSub` mirrors Python `re.sub` left-to-right scanning: at each
position, try the matcher; on a match of `n ≥ 1` characters emit the
replacement and resume right after the match (non-overlapping), else
emit the character and advance one.  `atStart` tracks the MULTILINE `^`
anchor (string start, or the position after a newline *of the text being
scanned* — matches are found against the original string).  Every
matcher used here consumes at least one character, so `l.length` fuel
always suffices; the `max n 1` only guards the recursion. -/

def reSubGo (m : Bool → List Char → Option (ℕ × List Char)) :
    ℕ → Bool → List Char → List Char
  | 0, _, l => l
  | _ + 1, _, [] => []
  | fuel + 1, atStart, c :: rest =>
    match m atStart (c :: rest) with
    | some (n, rep) =>
      let consumed := max n 1
      let lastc := (c :: rest).getD (consumed - 1) c
      rep ++ reSubGo m fuel (lastc = '\n') ((c :: rest).drop consumed)
    | none => c :: reSubGo m fuel (c = '\n') rest

def reSub (m : Bool → List Char → Option (ℕ × List Char))
    (l : List Char) : List Char :=
  reSubGo m l.length true l

/-- The `re.sub('[\\UXXXX-\\UYYYY]', '', text)`: drop every character whose
code point lies in the range. -/
def removeCharRange (lo hi : ℕ) (l : List Char) : List Char :=
  l.filter fun c => !(lo ≤ c.toNat && c.toNat ≤ hi)

/-- Case-insensitive literal prefix match; returns the rest of the
input after the pattern. -/
def matchCaseIns : List Char → List Char → Option (List Char)
  | [], l => some l
  | _ :: _, [] => none
  | p :: ps, c :: cs =>
    if p.toLower == c.toLower then matchCaseIns ps cs else none

/-- Matcher for `^(NARRATION|Narration):\s*` (IGNORECASE | MULTILINE) —
and, with another literal, `^(EXPLANATION|Explanation):\s*`. -/
def matchPrefixColonWs (lit : List Char) (atStart : Bool) (l : List Char) :
    Option (ℕ × List Char) :=
  if !atStart then none
  else
    match matchCaseIns lit l with
    | some rest => some (lit.length + (rest.takeWhile pyIsSpace).length, [])
    | none => none

/-- Matcher for `^Step\s+\d+:\s*` (IGNORECASE | MULTILINE).  The greedy
`\s+`/`\d+` runs are deterministic: whitespace, digits and `:` are
disjoint character classes, so no backtracking can arise. -/
def matchStepPfx (atStart : Bool) (l : List Char) :
    Option (ℕ × List Char) :=
  if !atStart then none
  else
    match matchCaseIns "step".data l with
    | none => none
    | some r1 =>
      let ws1 := (r1.takeWhile pyIsSpace).length
      if ws1 = 0 then none
      else
        let r2 := r1.drop ws1
        let ds := (r2.takeWhile Char.isDigit).length
        if ds = 0 then none
        else
          match r2.drop ds with
          | ':' :: r3 =>
            let ws2 := (r3.takeWhile pyIsSpace).length
            some (4 + ws1 + ds + 1 + ws2, [])
          | _ => none

/-- Matcher for `\s+` → `' '` (whitespace-run collapse). -/
def matchWsRun (_ : Bool) (l : List Char) : Option (ℕ × List Char) :=
  let k := (l.takeWhile pyIsSpace).length
  if k = 0 then none else some (k, [' '])

/-- The `PiperTTSService._sanitize_text_for_tts` (`tts_service.py`): emoji
range removal, `NARRATION:`/`EXPLANATION:`/`Step N:` prefix stripping,
whitespace collapsing, final `strip()`. -/
def sanitize_text_for_tts (s : String) : String :=
  if s = "" then s
  else
    let t := s.data
    let t := removeCharRange 0x1F600 0x1F64F t
    let t := removeCharRange 0x1F300 0x1F5FF t
    let t := removeCharRange 0x1F680 0x1F6FF t
    let t := removeCharRange 0x1F1E0 0x1F1FF t
    let t := removeCharRange 0x2702 0x27B0 t
    let t := removeCharRange 0x24C2 0x1F251 t
    let t := reSub (matchPrefixColonWs "narration:".data) t
    let t := reSub (matchPrefixColonWs "explanation:".data) t
    let t := reSub matchStepPfx t
    let t := reSub matchWsRun t
    String.mk (pyStrip t)

/-- C5. The sanitizer is not idempotent: on
`"Narration: Narration: hi"` one pass strips only the first prefix
(`re.sub` resumes scanning after the removed match, and the second
`Narration:` is not at a line start in the original string), leaving
`"Narration: Narration: hi" ↦ "Narration: hi" ↦ "hi"`. -/
theorem sanitize_text_for_tts_not_idempotent :
    sanitize_text_for_tts "Narration: Narration: hi" = "Narration: hi" ∧
    sanitize_text_for_tts (sanitize_text_for_tts "Narration: Narration: hi")
      = "hi" ∧
    sanitize_text_for_tts (sanitize_text_for_tts "Narration: Narration: hi")
      ≠ sanitize_text_for_tts "Narration: Narration: hi" := by
  refine ⟨?_, ?_, ?_⟩ <;> decide

/-! ## `TemplateFiller._sanitize_llm_output` — markdown stripping

Each `re.sub` pass gets one matcher for the `reSub` driver.  The lazy
groups (`(.*?)`) in the bold/italic/code patterns cannot cross a
newline (no DOTALL except the code fence), so they reduce to "first
closing delimiter on the same line"; the greedy runs are over disjoint
character classes, so no backtracking arises. -/

/-- The backquote character (code point 96). -/
def backquote : Char := Char.ofNat 96

/-- First index of the adjacent pair `a b`, scanning left to right and
aborting at a newline (the lazy inner group cannot match `'\n'`). -/
def findPairSameLine (a b : Char) : List Char → Option ℕ
  | [] => none
  | [_] => none
  | c :: d :: rest =>
    if c = '\n' then none
    else if c = a ∧ d = b then some 0
    else (findPairSameLine a b (d :: rest)).map (· + 1)

/-- First index of `t`, aborting at a newline. -/
def findCharSameLine (t : Char) : List Char → Option ℕ
  | [] => none
  | c :: rest =>
    if c = '\n' then none
    else if c = t then some 0
    else (findCharSameLine t rest).map (· + 1)

/-- The `(word)\)` where `word` runs over the regex alternation in priority
order; returns the consumed length including the closing paren. -/
def matchWordParen : List (List Char) → List Char → Option ℕ
  | [], _ => none
  | w :: ws, l =>
    match matchCaseIns w l with
    | some (')' :: _) => some (w.length + 1)
    | _ => matchWordParen ws l

/-- The `\(\d+\s*(characters?|words?|chars?)\)` (IGNORECASE) → `''`. -/
def matchParenCount (_ : Bool) : List Char → Option (ℕ × List Char)
  | '(' :: rest =>
    let ds := (rest.takeWhile Char.isDigit).length
    if ds = 0 then none
    else
      let r2 := rest.drop ds
      let w := (r2.takeWhile pyIsSpace).length
      let r3 := r2.drop w
      match matchWordParen
          ["characters".data, "character".data, "words".data, "word".data,
           "chars".data, "char".data] r3 with
      | some k => some (1 + ds + w + k, [])
      | none => none
  | _ => none

/-- The `\*\*(.*?)\*\*` → `\1`. -/
def matchBoldStar (_ : Bool) : List Char → Option (ℕ × List Char)
  | '*' :: '*' :: rest =>
    match findPairSameLine '*' '*' rest with
    | some i => some (2 + i + 2, rest.take i)
    | none => none
  | _ => none

/-- The `\*(.*?)\*` → `\1`. -/
def matchItalicStar (_ : Bool) : List Char → Option (ℕ × List Char)
  | '*' :: rest =>
    match findCharSameLine '*' rest with
    | some i => some (1 + i + 1, rest.take i)
    | none => none
  | _ => none

/-- The `\*+` → `''`. -/
def matchStarRun (_ : Bool) (l : List Char) : Option (ℕ × List Char) :=
  let k := (l.takeWhile (· = '*')).length
  if k = 0 then none else some (k, [])

/-- The `__(.*?)__` → `\1`. -/
def matchDunder (_ : Bool) : List Char → Option (ℕ × List Char)
  | '_' :: '_' :: rest =>
    match findPairSameLine '_' '_' rest with
    | some i => some (2 + i + 2, rest.take i)
    | none => none
  | _ => none

/-- The `_(.*?)_` → `\1`. -/
def matchUnderscore (_ : Bool) : List Char → Option (ℕ × List Char)
  | '_' :: rest =>
    match findCharSameLine '_' rest with
    | some i => some (1 + i + 1, rest.take i)
    | none => none
  | _ => none

/-- The `^#+\s*` (MULTILINE) → `''`. -/
def matchHashHeader (atStart : Bool) (l : List Char) : Option (ℕ × List Char) :=
  if !atStart then none
  else
    let k := (l.takeWhile (· = '#')).length
    if k = 0 then none
    else some (k + ((l.drop k).takeWhile pyIsSpace).length, [])

/-- Code fences (DOTALL) → `''`: three backquotes, non-backquote run,
three backquotes. -/
def matchCodeFence (_ : Bool) (l : List Char) : Option (ℕ × List Char) :=
  if startsWithChars [backquote, backquote, backquote] l then
    let body := l.drop 3
    let j := (body.takeWhile (· ≠ backquote)).length
    if startsWithChars [backquote, backquote, backquote] (body.drop j) then
      some (3 + j + 3, [])
    else none
  else none

/-- Inline code → `\1`: backquote, non-backquote run, backquote. -/
def matchInlineCode (_ : Bool) (l : List Char) : Option (ℕ × List Char) :=
  match l with
  | c :: rest =>
    if c = backquote then
      let j := (rest.takeWhile (· ≠ backquote)).length
      match rest.drop j with
      | d :: _ => if d = backquote then some (1 + j + 1, rest.take j) else none
      | [] => none
    else none
  | [] => none

/-- The `\[([^\]]+)\]\([^\)]+\)` → `\1` (markdown links keep the text). -/
def matchMdLink (_ : Bool) : List Char → Option (ℕ × List Char)
  | '[' :: rest =>
    let t := (rest.takeWhile (· ≠ ']')).length
    if t = 0 then none
    else
      match rest.drop t with
      | ']' :: '(' :: r2 =>
        let u := (r2.takeWhile (· ≠ ')')).length
        if u = 0 then none
        else
          match r2.drop u with
          | ')' :: _ => some (1 + t + 2 + u + 1, rest.take t)
          | _ => none
      | _ => none
  | _ => none

/-- The `:\s*\*\*` → `': '`. -/
def matchColonBold (_ : Bool) : List Char → Option (ℕ × List Char)
  | ':' :: rest =>
    let w := (rest.takeWhile pyIsSpace).length
    if startsWithChars "**".data (rest.drop w) then
      some (1 + w + 2, [':', ' '])
    else none
  | _ => none

/-- The `:\s*\*` → `': '`. -/
def matchColonStar (_ : Bool) : List Char → Option (ℕ × List Char)
  | ':' :: rest =>
    let w := (rest.takeWhile pyIsSpace).length
    if startsWithChars "*".data (rest.drop w) then
      some (1 + w + 1, [':', ' '])
    else none
  | _ => none

/-- The `:\s*#+` → `': '`. -/
def matchColonHash (_ : Bool) : List Char → Option (ℕ × List Char)
  | ':' :: rest =>
    let w := (rest.takeWhile pyIsSpace).length
    let k := ((rest.drop w).takeWhile (· = '#')).length
    if k = 0 then none else some (1 + w + k, [':', ' '])
  | _ => none

/-- Membership in the residual-artifact class `[\*_#\x60~\[\]]`. -/
def isArtifactChar (c : Char) : Bool :=
  c = '*' || c = '_' || c = '#' || c = backquote || c = '~' ||
    c = '[' || c = ']'

/-- The `[\*_#\x60~\[\]]+` → `''`. -/
def matchArtifacts (_ : Bool) (l : List Char) : Option (ℕ × List Char) :=
  let k := (l.takeWhile isArtifactChar).length
  if k = 0 then none else some (k, [])

/-- The `:{2,}` → `':'`. -/
def matchColonRun (_ : Bool) (l : List Char) : Option (ℕ × List Char) :=
  let k := (l.takeWhile (· = ':')).length
  if k < 2 then none else some (k, [':'])

/-- First alternative of `(Concise|Brief|Short|Long|Detailed)?` that
matches (0 when none does). -/
def matchOptionWord : List (List Char) → List Char → ℕ
  | [], _ => 0
  | w :: ws, l =>
    match matchCaseIns w l with
    | some _ => w.length
    | none => matchOptionWord ws l

/-- The `^(Option\s+\d+\s*[:\-\(]*\s*(Concise|…)?\s*[:\-\)]*\s*)`
(IGNORECASE, no MULTILINE: it can only match at position 0).  All runs
after the digits are star-quantified over disjoint classes, so the
greedy sequential scan is exact. -/
def matchOptionPfx (l : List Char) : Option ℕ :=
  match matchCaseIns "option".data l with
  | none => none
  | some r1 =>
    let w1 := (r1.takeWhile pyIsSpace).length
    if w1 = 0 then none
    else
      let r2 := r1.drop w1
      let ds := (r2.takeWhile Char.isDigit).length
      if ds = 0 then none
      else
        let r3 := r2.drop ds
        let p1 := (r3.takeWhile fun c => c = ':' || c = '-' || c = '(').length
        let r4 := r3.drop p1
        let w2 := (r4.takeWhile pyIsSpace).length
        let r5 := r4.drop w2
        let wlen := matchOptionWord
          ["concise".data, "brief".data, "short".data, "long".data,
           "detailed".data] r5
        let r6 := r5.drop wlen
        let w3 := (r6.takeWhile pyIsSpace).length
        let r7 := r6.drop w3
        let p2 := (r7.takeWhile fun c => c = ':' || c = '-' || c = ')').length
        let r8 := r7.drop p2
        let w4 := (r8.takeWhile pyIsSpace).length
        some (6 + w1 + ds + p1 + w2 + wlen + w3 + p2 + w4)

/-- A `^`-anchored `re.sub` without MULTILINE: at most one match, at
position 0, replaced by the empty string. -/
def subStartOnly (m : List Char → Option ℕ) (l : List Char) : List Char :=
  match m l with
  | some n => l.drop n
  | none => l

/-- The `[:\-\*\s]` class of the leading/trailing artifact strips. -/
def isColonDashStarWs (c : Char) : Bool :=
  c = ':' || c = '-' || c = '*' || pyIsSpace c

/-- The `TemplateFiller._sanitize_llm_output`, pass for pass in source
order.  `^[:\-\*\s]+`/`[:\-\*\s]+$` without MULTILINE strip exactly the
maximal leading/trailing class run. -/
def sanitize_llm_output (content : String) : String :=
  if content = "" then content
  else
    let t := content.data
    let t := reSub matchParenCount t
    let t := reSub matchBoldStar t
    let t := reSub matchItalicStar t
    let t := reSub matchStarRun t
    let t := reSub matchDunder t
    let t := reSub matchUnderscore t
    let t := reSub matchHashHeader t
    let t := reSub matchCodeFence t
    let t := reSub matchInlineCode t
    let t := reSub matchMdLink t
    let t := reSub matchColonBold t
    let t := reSub matchColonStar t
    let t := reSub matchColonHash t
    let t := reSub matchArtifacts t
    let t := reSub matchColonRun t
    let t := subStartOnly matchOptionPfx t
    let t := reSub matchWsRun t
    let t := t.dropWhile isColonDashStarWs
    let t := (t.reverse.dropWhile isColonDashStarWs).reverse
    String.mk (pyStrip t)

/-! ## `TemplateFiller.fill_template` (C4)

The LLM collaborator (`ollama_service._make_request(prompt, "system")`)
is the external boundary: a function that may return text, return
`None`, or raise — `Except String (Option String)`. -/

abbrev LLMService := String → String → Except String (Option String)

/-- The slide of a template as the filler reads it (`layout`/`responsive`
through shared references, see C9). -/
structure FillerSlide where
  id : String
  refs : SlideLayoutRefs
  placeholders : List (String × String)
  llmPrompts : List (String × String)
  fallbackData : List (String × String)
  deriving Repr, DecidableEq

structure FillerTemplate where
  id : String
  name : String
  slides : List FillerSlide
  deriving Repr, DecidableEq

/-- The `FilledTemplate` (metadata keys flattened to the fields the claims
read: `generation_method`, `template_name`, `slide_id`). -/
structure FilledTemplate where
  template_id : String
  topic : String
  slide_index : ℕ
  filled_content : List (String × String)
  generation_method : String
  template_name : String
  slide_id : String
  is_fallback : Bool
  deriving Repr, DecidableEq

/-- The `element_constraints.get("maxChars", 300)` where
`element_constraints = constraints.get(key, {})`. -/
def cMaxChars (c : Option FillConstraints) : ℤ :=
  match c with
  | some c => c.maxChars
  | none => 300

def cMaxLines (c : Option FillConstraints) : ℤ :=
  match c with
  | some c => c.maxLines
  | none => 5

def cFormat (c : Option FillConstraints) : String :=
  match c with
  | some c => c.format
  | none => "text"

/-- Python `str.replace(old, new)`: non-overlapping, left-to-right
replacement of every occurrence.  Fuel is bounded by the input length;
every step consumes at least one character (the patterns used are
non-empty), so the fuel never runs out. -/
def replaceAllGo (pat rep : List Char) : ℕ → List Char → List Char
  | 0, l => l
  | _ + 1, [] => []
  | fuel + 1, c :: rest =>
    if startsWithChars pat (c :: rest) then
      rep ++ replaceAllGo pat rep fuel ((c :: rest).drop (max pat.length 1))
    else c :: replaceAllGo pat rep fuel rest

def pyReplace (s pat rep : String) : String :=
  String.mk (replaceAllGo pat.data rep.data s.data.length s.data)

/-- The `TemplateFiller._build_prompt`. -/
def build_prompt (prompt_template topic : String)
    (c : Option FillConstraints) : String :=
  let p := pyReplace prompt_template "\x7b\x7bTOPIC\x7d\x7d" topic
  let p := pyReplace p "\x7bmaxChars\x7d" (toString (cMaxChars c))
  let p := pyReplace p "\x7bmaxLines\x7d" (toString (cMaxLines c))
  if cFormat c = "bullets" then p ++ " Use bullet points with • symbols."
  else p

/-- The `content.split('\n')` (keeps empty fields). -/
def splitNl : List Char → List (List Char)
  | [] => [[]]
  | c :: rest =>
    if c = '\n' then [] :: splitNl rest
    else
      match splitNl rest with
      | w :: ws => (c :: w) :: ws
      | [] => [[c]]

/-- The `'\n'.join(...)`. -/
def joinNl (ls : List (List Char)) : List Char :=
  (ls.intersperse ['\n']).flatten

/-- The `TemplateFiller._validate_and_trim_content`. -/
def validate_and_trim_content (content : String)
    (c : Option FillConstraints) : String :=
  let max_chars := cMaxChars c
  let max_lines := cMaxLines c
  let body :=
    if cFormat c = "bullets" then
      let lines := splitNl content.data
      let bullet_lines := (lines.take max_lines.toNat).filterMap fun line =>
        let line := pyStrip line
        if line.isEmpty then none
        else if startsWithChars "•".data line || startsWithChars "-".data line
          then some line
        else some ("• ".data ++ line)
      joinNl bullet_lines
    else
      let lines := splitNl content.data
      if max_lines < (lines.length : ℤ) then joinNl (lines.take max_lines.toNat)
      else content.data
  if max_chars < (body.length : ℤ) then
    let trimmed := body.take max_chars.toNat
    let last_space := rfindSpace trimmed
    if (max_chars : ℚ) * (7/10) < ((last_space : ℤ) : ℚ) then
      String.mk (trimmed.take last_space.toNat ++ "...".data)
    else String.mk (trimmed ++ "...".data)
  else String.mk body

/-- The `TemplateFiller._call_llm`: wraps any collaborator failure (or an
empty/None response) in `"Failed to generate content: ..."`; a missing
collaborator raises before the `try` block. -/
def call_llm (ollama : Option LLMService) (prompt : String)
    (c : Option FillConstraints) : Except String String :=
  match ollama with
  | none => .error "No LLM service available"
  | some mk =>
    let enhanced := prompt ++ " Keep your response under "
      ++ toString (cMaxChars c) ++ " characters and make it clear and direct."
    match mk enhanced "system" with
    | .error e => .error ("Failed to generate content: " ++ e)
    | .ok none => .error "Failed to generate content: Empty response from LLM"
    | .ok (some rt) =>
      if (pyStrip rt.data).isEmpty then
        .error "Failed to generate content: Empty response from LLM"
      else .ok (validate_and_trim_content (String.mk (pyStrip rt.data)) c)

/-- The `for placeholder_key, placeholder_value in placeholders.items()`
loop of `_generate_content_with_llm`; `acc` is `filled_content` so far,
in insertion order.  A placeholder with no prompt takes its fallback
value; a raised LLM exception aborts the whole loop. -/
def genContentLoop (ollama : Option LLMService) (slide : FillerSlide)
    (topic : String) (constraints : List (String × FillConstraints)) :
    List (String × String) → List (String × String) →
      Except String (List (String × String))
  | acc, [] => .ok acc
  | acc, (key, _v) :: rest =>
    match alistGet slide.llmPrompts key with
    | some prompt_template =>
      let element_constraints := alistGet constraints key
      let prompt := build_prompt prompt_template topic element_constraints
      match call_llm ollama prompt element_constraints with
      | .error e => .error e
      | .ok raw =>
        genContentLoop ollama slide topic constraints
          (acc ++ [(key, sanitize_llm_output raw)]) rest
    | none =>
      let fb := (alistGet slide.fallbackData key).getD
        ("[No content generated for " ++ key ++ "]")
      genContentLoop ollama slide topic constraints (acc ++ [(key, fb)]) rest

/-- The `TemplateFiller._generate_content_with_llm`. -/
def generate_content_with_llm (ollama : Option LLMService)
    (slide : FillerSlide) (topic : String)
    (constraints : List (String × FillConstraints)) :
    Except String (List (String × String)) :=
  genContentLoop ollama slide topic constraints [] slide.placeholders

def emptyFillerSlide : FillerSlide := ⟨"", ⟨[], []⟩, [], [], []⟩

/-- The `TemplateFiller._create_fallback_template`: the fallback data,
copied wholesale, flagged `is_fallback=True`. -/
def create_fallback_template (template : FillerTemplate) (topic : String)
    (slide_index : ℕ) : FilledTemplate :=
  let slide := template.slides.getD slide_index emptyFillerSlide
  { template_id := template.id
    topic := topic
    slide_index := slide_index
    filled_content := slide.fallbackData
    generation_method := "fallback"
    template_name := template.name
    slide_id := slide.id
    is_fallback := true }

/-- The `TemplateFiller.fill_template`.  Returns the template store (heap)
after the call alongside the `FilledTemplate`; an out-of-range slide
index raises. -/
def fill_template (heap : LayoutHeap) (ollama : Option LLMService)
    (template : FillerTemplate) (topic : String) (slide_index : ℕ)
    (container_size : Option (ℕ × ℕ)) :
    Except String (LayoutHeap × FilledTemplate) :=
  if template.slides.length ≤ slide_index then
    .error ("Slide index " ++ toString slide_index ++ " out of range")
  else
    let slide := template.slides.getD slide_index emptyFillerSlide
    let rc := get_responsive_constraints heap slide.refs container_size
    match generate_content_with_llm ollama slide topic rc.2 with
    | .ok filled =>
      .ok (rc.1,
        { template_id := template.id
          topic := topic
          slide_index := slide_index
          filled_content := filled
          generation_method := "llm"
          template_name := template.name
          slide_id := slide.id
          is_fallback := false })
    | .error _ => .ok (rc.1, create_fallback_template template topic slide_index)

/-- The placeholder loop processes an appended list by processing the
first part and, if no exception was raised, continuing on the second
with the accumulated content; an exception aborts the whole loop. -/
theorem genContentLoop_append (ollama : Option LLMService)
    (slide : FillerSlide) (topic : String)
    (constraints : List (String × FillConstraints))
    (pre post : List (String × String)) :
    ∀ acc, genContentLoop ollama slide topic constraints acc (pre ++ post)
      = match genContentLoop ollama slide topic constraints acc pre with
        | Except.ok acc' => genContentLoop ollama slide topic constraints acc' post
        | Except.error e => Except.error e := by
  induction pre with
  | nil =>
    intro acc
    simp [genContentLoop]
  | cons p rest ih =>
    intro acc
    obtain ⟨k0, v0⟩ := p
    simp only [List.cons_append, genContentLoop]
    cases alistGet slide.llmPrompts k0 with
    | some prompt_template =>
      dsimp only
      cases call_llm ollama
          (build_prompt prompt_template topic (alistGet constraints k0))
          (alistGet constraints k0) with
      | error e => rfl
      | ok raw => exact ih _
    | none => exact ih _

/-- If the loop reaches a placeholder whose prompt is configured and
whose LLM call raises, the loop aborts with that exception — whatever
content `acc` has been generated so far. -/
theorem genContentLoop_raise_head (ollama : Option LLMService)
    (slide : FillerSlide) (topic : String)
    (constraints : List (String × FillConstraints))
    (k v : String) (post : List (String × String))
    (pt e : String) (acc : List (String × String))
    (hpt : alistGet slide.llmPrompts k = some pt)
    (hraise : call_llm ollama (build_prompt pt topic (alistGet constraints k))
      (alistGet constraints k) = Except.error e) :
    genContentLoop ollama slide topic constraints acc ((k, v) :: post)
      = Except.error e := by
  simp only [genContentLoop]
  rw [hpt]
  dsimp only
  rw [hraise]

/-- C4. Template filling is all-or-nothing: (a) if the LLM collaborator
raises while filling *any* placeholder — in particular after the
placeholders before it were filled successfully, producing partial
content `acc'` — `fill_template` discards that partial content and
returns the slide's static `fallbackData` for all fields, flagged
`is_fallback = true`; (b) a fill whose content generation completes
without an LLM exception returns that content flagged
`is_fallback = false`. -/
theorem fill_template_fallback_all_or_nothing (heap : LayoutHeap)
    (mk : LLMService) (template : FillerTemplate) (topic : String)
    (slide_index : ℕ) (container_size : Option (ℕ × ℕ))
    (hidx : slide_index < template.slides.length) :
    (∀ (pre post : List (String × String)) (k v pt : String)
        (acc' : List (String × String)) (e : String),
      (template.slides.getD slide_index emptyFillerSlide).placeholders
        = pre ++ (k, v) :: post →
      alistGet (template.slides.getD slide_index
        emptyFillerSlide).llmPrompts k = some pt →
      genContentLoop (some mk)
        (template.slides.getD slide_index emptyFillerSlide) topic
        (get_responsive_constraints heap
          (template.slides.getD slide_index emptyFillerSlide).refs
          container_size).2 [] pre = Except.ok acc' →
      call_llm (some mk)
        (build_prompt pt topic
          (alistGet (get_responsive_constraints heap
            (template.slides.getD slide_index emptyFillerSlide).refs
            container_size).2 k))
        (alistGet (get_responsive_constraints heap
          (template.slides.getD slide_index emptyFillerSlide).refs
          container_size).2 k) = Except.error e →
      fill_template heap (some mk) template topic slide_index container_size
        = Except.ok
          ((get_responsive_constraints heap
            (template.slides.getD slide_index emptyFillerSlide).refs
            container_size).1,
           create_fallback_template template topic slide_index) ∧
      (create_fallback_template template topic slide_index).filled_content
        = (template.slides.getD slide_index emptyFillerSlide).fallbackData ∧
      (create_fallback_template template topic slide_index).is_fallback
        = true) ∧
    (∀ fc, generate_content_with_llm (some mk)
        (template.slides.getD slide_index emptyFillerSlide) topic
        (get_responsive_constraints heap
          (template.slides.getD slide_index emptyFillerSlide).refs
          container_size).2 = Except.ok fc →
      ∃ ft, fill_template heap (some mk) template topic slide_index
          container_size
          = Except.ok
            ((get_responsive_constraints heap
              (template.slides.getD slide_index emptyFillerSlide).refs
              container_size).1, ft) ∧
        ft.filled_content = fc ∧ ft.is_fallback = false) := by
  have hnotle : ¬ template.slides.length ≤ slide_index := not_le.mpr hidx
  constructor
  · intro pre post k v pt acc' e hsplit hpt hpre hraise
    have hgen : generate_content_with_llm (some mk)
        (template.slides.getD slide_index emptyFillerSlide) topic
        (get_responsive_constraints heap
          (template.slides.getD slide_index emptyFillerSlide).refs
          container_size).2 = Except.error e := by
      unfold generate_content_with_llm
      rw [hsplit, genContentLoop_append, hpre]
      exact genContentLoop_raise_head _ _ _ _ k v post pt e acc' hpt hraise
    refine ⟨?_, rfl, rfl⟩
    unfold fill_template
    rw [if_neg hnotle]
    dsimp only
    rw [hgen]
  · intro fc hok
    have hfill : fill_template heap (some mk) template topic slide_index
        container_size
        = Except.ok
          ((get_responsive_constraints heap
            (template.slides.getD slide_index emptyFillerSlide).refs
            container_size).1,
           { template_id := template.id
             topic := topic
             slide_index := slide_index
             filled_content := fc
             generation_method := "llm"
             template_name := template.name
             slide_id := (template.slides.getD slide_index emptyFillerSlide).id
             is_fallback := false }) := by
      unfold fill_template
      rw [if_neg hnotle]
      dsimp only
      rw [hok]
    exact ⟨_, hfill, rfl, rfl⟩

/-- Witness for C4: a slide with two prompted placeholders and a
collaborator that answers the heading prompt but raises on the content
prompt — the successfully generated heading (`"A nice heading"`) is
discarded and both fields come from `fallbackData`. -/
theorem fill_template_fallback_all_or_nothing_witness :
    0 < (FillerTemplate.mk "title-objective-1" "Title + Objective"
        [⟨"slide-1", ⟨[], []⟩, [("heading", ""), ("content", "")],
          [("heading", "Heading about \x7b\x7bTOPIC\x7d\x7d"),
           ("content", "Content about \x7b\x7bTOPIC\x7d\x7d")],
          [("heading", "Key Learning Concepts"),
           ("content", "This section covers essential information.")]⟩]
      ).slides.length ∧
    ((FillerTemplate.mk "title-objective-1" "Title + Objective"
        [⟨"slide-1", ⟨[], []⟩, [("heading", ""), ("content", "")],
          [("heading", "Heading about \x7b\x7bTOPIC\x7d\x7d"),
           ("content", "Content about \x7b\x7bTOPIC\x7d\x7d")],
          [("heading", "Key Learning Concepts"),
           ("content", "This section covers essential information.")]⟩]
      ).slides.getD 0 emptyFillerSlide).placeholders
      = [("heading", "")] ++ ("content", "") :: [] ∧
    alistGet ((FillerTemplate.mk "title-objective-1" "Title + Objective"
        [⟨"slide-1", ⟨[], []⟩, [("heading", ""), ("content", "")],
          [("heading", "Heading about \x7b\x7bTOPIC\x7d\x7d"),
           ("content", "Content about \x7b\x7bTOPIC\x7d\x7d")],
          [("heading", "Key Learning Concepts"),
           ("content", "This section covers essential information.")]⟩]
      ).slides.getD 0 emptyFillerSlide).llmPrompts "content"
      = some "Content about \x7b\x7bTOPIC\x7d\x7d" ∧
    genContentLoop
      (some fun p _ =>
        if containsSub "Heading".data p.data then
          Except.ok (some "A nice heading")
        else Except.error "timeout")
      ((FillerTemplate.mk "title-objective-1" "Title + Objective"
        [⟨"slide-1", ⟨[], []⟩, [("heading", ""), ("content", "")],
          [("heading", "Heading about \x7b\x7bTOPIC\x7d\x7d"),
           ("content", "Content about \x7b\x7bTOPIC\x7d\x7d")],
          [("heading", "Key Learning Concepts"),
           ("content", "This section covers essential information.")]⟩]
        ).slides.getD 0 emptyFillerSlide)
      "Photosynthesis"
      (get_responsive_constraints []
        ((FillerTemplate.mk "title-objective-1" "Title + Objective"
          [⟨"slide-1", ⟨[], []⟩, [("heading", ""), ("content", "")],
            [("heading", "Heading about \x7b\x7bTOPIC\x7d\x7d"),
             ("content", "Content about \x7b\x7bTOPIC\x7d\x7d")],
            [("heading", "Key Learning Concepts"),
             ("content", "This section covers essential information.")]⟩]
          ).slides.getD 0 emptyFillerSlide).refs none).2
      [] [("heading", "")]
      = Except.ok [("heading", "A nice heading")] ∧
    call_llm
      (some fun p _ =>
        if containsSub "Heading".data p.data then
          Except.ok (some "A nice heading")
        else Except.error "timeout")
      (build_prompt "Content about \x7b\x7bTOPIC\x7d\x7d" "Photosynthesis"
        (alistGet (get_responsive_constraints []
          ((FillerTemplate.mk "title-objective-1" "Title + Objective"
            [⟨"slide-1", ⟨[], []⟩, [("heading", ""), ("content", "")],
              [("heading", "Heading about \x7b\x7bTOPIC\x7d\x7d"),
               ("content", "Content about \x7b\x7bTOPIC\x7d\x7d")],
              [("heading", "Key Learning Concepts"),
               ("content", "This section covers essential information.")]⟩]
            ).slides.getD 0 emptyFillerSlide).refs none).2 "content"))
      (alistGet (get_responsive_constraints []
        ((FillerTemplate.mk "title-objective-1" "Title + Objective"
          [⟨"slide-1", ⟨[], []⟩, [("heading", ""), ("content", "")],
            [("heading", "Heading about \x7b\x7bTOPIC\x7d\x7d"),
             ("content", "Content about \x7b\x7bTOPIC\x7d\x7d")],
            [("heading", "Key Learning Concepts"),
             ("content", "This section covers essential information.")]⟩]
          ).slides.getD 0 emptyFillerSlide).refs none).2 "content")
      = Except.error "Failed to generate content: timeout" ∧
    fill_template []
      (some fun p _ =>
        if containsSub "Heading".data p.data then
          Except.ok (some "A nice heading")
        else Except.error "timeout")
      (FillerTemplate.mk "title-objective-1" "Title + Objective"
        [⟨"slide-1", ⟨[], []⟩, [("heading", ""), ("content", "")],
          [("heading", "Heading about \x7b\x7bTOPIC\x7d\x7d"),
           ("content", "Content about \x7b\x7bTOPIC\x7d\x7d")],
          [("heading", "Key Learning Concepts"),
           ("content", "This section covers essential information.")]⟩])
      "Photosynthesis" 0 none
      = Except.ok
        ((get_responsive_constraints []
          ((FillerTemplate.mk "title-objective-1" "Title + Objective"
            [⟨"slide-1", ⟨[], []⟩, [("heading", ""), ("content", "")],
              [("heading", "Heading about \x7b\x7bTOPIC\x7d\x7d"),
               ("content", "Content about \x7b\x7bTOPIC\x7d\x7d")],
              [("heading", "Key Learning Concepts"),
               ("content", "This section covers essential information.")]⟩]
            ).slides.getD 0 emptyFillerSlide).refs none).1,
         create_fallback_template
           (FillerTemplate.mk "title-objective-1" "Title + Objective"
             [⟨"slide-1", ⟨[], []⟩, [("heading", ""), ("content", "")],
               [("heading", "Heading about \x7b\x7bTOPIC\x7d\x7d"),
                ("content", "Content about \x7b\x7bTOPIC\x7d\x7d")],
               [("heading", "Key Learning Concepts"),
                ("content", "This section covers essential information.")]⟩])
           "Photosynthesis" 0) ∧
    (create_fallback_template
        (FillerTemplate.mk "title-objective-1" "Title + Objective"
          [⟨"slide-1", ⟨[], []⟩, [("heading", ""), ("content", "")],
            [("heading", "Heading about \x7b\x7bTOPIC\x7d\x7d"),
             ("content", "Content about \x7b\x7bTOPIC\x7d\x7d")],
            [("heading", "Key Learning Concepts"),
             ("content", "This section covers essential information.")]⟩])
        "Photosynthesis" 0).filled_content
      = [("heading", "Key Learning Concepts"),
         ("content", "This section covers essential information.")] ∧
    (create_fallback_template
        (FillerTemplate.mk "title-objective-1" "Title + Objective"
          [⟨"slide-1", ⟨[], []⟩, [("heading", ""), ("content", "")],
            [("heading", "Heading about \x7b\x7bTOPIC\x7d\x7d"),
             ("content", "Content about \x7b\x7bTOPIC\x7d\x7d")],
            [("heading", "Key Learning Concepts"),
             ("content", "This section covers essential information.")]⟩])
        "Photosynthesis" 0).is_fallback = true := by
  refine ⟨by norm_num, by decide, by decide, by decide, by decide, ?_,
    by decide, by decide⟩
  exact ((fill_template_fallback_all_or_nothing []
    (fun p _ =>
      if containsSub "Heading".data p.data then
        Except.ok (some "A nice heading")
      else Except.error "timeout")
    (FillerTemplate.mk "title-objective-1" "Title + Objective"
      [⟨"slide-1", ⟨[], []⟩, [("heading", ""), ("content", "")],
        [("heading", "Heading about \x7b\x7bTOPIC\x7d\x7d"),
         ("content", "Content about \x7b\x7bTOPIC\x7d\x7d")],
        [("heading", "Key Learning Concepts"),
         ("content", "This section covers essential information.")]⟩])
    "Photosynthesis" 0 none (by norm_num)).1
    [("heading", "")] [] "content" "" "Content about \x7b\x7bTOPIC\x7d\x7d"
    [("heading", "A nice heading")] "Failed to generate content: timeout"
    (by decide) (by decide) (by decide) (by decide)).1
